import Mathlib

/-!
Verification development for the Crucible MCP server repository.

The repository contains two Python entry points:
  * `crucible_mcp_server.py` — an MCP `Server` with `handle_list_tools`
    (the Tool Registry) and `handle_call_tool` (the Dispatcher), plus a
    `main` startup routine reading two environment variables.
  * `crucible_mcp_server2.0.py` — a FastMCP rewrite where each tool is a
    typed Python function; `list_datasets` and `list_samples` build a
    `filter_fields` dict and forward only the non-None entries.

The external `pycrucible.CrucibleClient` is not part of the repository; it
is modelled as an abstract function from a *client call description*
(method plus the exact positional/keyword arguments the dispatcher passes)
to either a JSON-like value or a raised exception.  Python `None` is
modelled by `Json.null`, Python dicts of arguments by association lists,
and a raised exception by the `Except.error` branch of `Except PyError`.
-/

/-- JSON-compatible Python values as handled by the server: `Json.null`
models Python `None`. -/
inductive Json where
  | null : Json
  | bool : Bool → Json
  | num : Int → Json
  | str : String → Json
  | arr : List Json → Json
  | obj : List (String × Json) → Json

/-- An argument bag: the `arguments : Dict[str, Any]` of a tool call,
modelled as an association list (first binding wins, as dict keys are
unique). -/
abbrev Args := List (String × Json)

/-- Dictionary lookup, `arguments.get(k)` without default. -/
def Args.get? (a : Args) (k : String) : Option Json :=
  match a with
  | [] => none
  | (k2, v) :: rest => if k2 = k then some v else Args.get? rest k

/-- Dictionary lookup with default, `arguments.get(k, d)`. -/
def Args.getD (a : Args) (k : String) (d : Json) : Json :=
  (a.get? k).getD d

/-- Python exceptions as observed by the dispatcher: a `KeyError` raised by
`arguments["k"]` on a missing key, or an arbitrary exception raised by the
underlying client method. -/
inductive PyError where
  | keyError : String → PyError
  | exc : String → PyError

/-- Python `str(e)`: `str(KeyError("k"))` is `"'k'"` (the repr of the key);
for other exceptions we carry the message directly. -/
def PyError.str : PyError → String
  | .keyError k => "\x27" ++ k ++ "\x27"
  | .exc msg => msg

/-- Subscripting `arguments["k"]`: raises `KeyError` when the key is
missing. -/
def getReq (arguments : Args) (k : String) : Except PyError Json :=
  match arguments.get? k with
  | some v => .ok v
  | none => .error (.keyError k)

/-- One constructor per `client.<method>(...)` call site in
`handle_call_tool`, carrying exactly the argument values the source passes.
`kwargs` fields model Python `**`-expansion of the whole bag. -/
inductive ClientCall where
  | list_projects (limit : Json)
  | get_user_account_info
  | get_project (project_id : Json)
  | get_user (orcid : Json)
  | list_datasets (kwargs : Args)
  | get_dataset (dsid : Json) (include_metadata : Json)
  | update_dataset (dsid : Json) (updates : Json)
  | download_dataset (dsid : Json) (file_name : Json) (output_path : Json)
  | request_ingestion (dsid : Json) (file_to_upload : Json) (ingestion_class : Json) (wait_for_response : Json)
  | get_ingestion_status (dsid : Json) (reqid : Json)
  | get_scicat_status (dsid : Json) (reqid : Json)
  | get_thumbnails (dsid : Json) (limit : Json)
  | add_thumbnail (dsid : Json) (file_path : Json) (thumbnail_name : Json)
  | get_associated_files (dsid : Json) (limit : Json)
  | add_associated_file (dsid : Json) (file_path : Json) (filename : Json)
  | get_scientific_metadata (dsid : Json)
  | update_scientific_metadata (dsid : Json) (metadata : Json) (overwrite : Json)
  | get_keywords (limit : Json)
  | add_dataset_keyword (dsid : Json) (keyword : Json)
  | request_scicat_upload (dsid : Json) (wait_for_response : Json) (overwrite_data : Json)
  | get_google_drive_location (dsid : Json)
  | list_instruments
  | get_instrument (instrument_name : Json) (instrument_id : Json)
  | get_or_add_instrument (instrument_name : Json) (location : Json) (instrument_owner : Json)
  | list_samples (kwargs : Args)
  | get_sample (sample_id : Json)
  | add_sample (kwargs : Args)
  | add_sample_to_dataset (dataset_id : Json) (sample_id : Json)
  | get_project_users (project_id : Json)

/-- Argument extraction and client-call construction of `handle_call_tool`,
a direct transcription of the `if name == ... / elif ...` chain.  `none`
is the final `else` branch (unknown tool, no client call); `some (.error e)`
means extraction raised (a `KeyError` caught by the surrounding
`try`/`except`); `some (.ok c)` is the client call the source performs. -/
def dispatchCall (name : String) (arguments : Args) : Option (Except PyError ClientCall) :=
  if name = "list_projects" then
    some (.ok (.list_projects (arguments.getD "limit" (.num 100))))
  else if name = "get_account" then
    some (.ok .get_user_account_info)
  else if name = "get_project" then
    some ((getReq arguments "project_id").map ClientCall.get_project)
  else if name = "get_user" then
    some ((getReq arguments "orcid").map ClientCall.get_user)
  else if name = "list_datasets" then
    some (.ok (.list_datasets arguments))
  else if name = "get_dataset" then
    some (do
      let dsid ← getReq arguments "dsid"
      return ClientCall.get_dataset dsid (arguments.getD "include_metadata" (.bool false)))
  else if name = "update_dataset" then
    some (do
      let dsid ← getReq arguments "dsid"
      let updates ← getReq arguments "updates"
      return ClientCall.update_dataset dsid updates)
  else if name = "download_dataset" then
    some (do
      let dsid ← getReq arguments "dsid"
      return ClientCall.download_dataset dsid (arguments.getD "file_name" .null)
        (arguments.getD "output_path" .null))
  else if name = "request_ingestion" then
    some (do
      let dsid ← getReq arguments "dsid"
      return ClientCall.request_ingestion dsid (arguments.getD "file_to_upload" .null)
        (arguments.getD "ingestion_class" .null) (arguments.getD "wait_for_response" .null))
  else if name = "get_ingestion_status" then
    some (do
      let dsid ← getReq arguments "dsid"
      let reqid ← getReq arguments "reqid"
      return ClientCall.get_ingestion_status dsid reqid)
  else if name = "get_scicat_status" then
    some (do
      let dsid ← getReq arguments "dsid"
      let reqid ← getReq arguments "reqid"
      return ClientCall.get_scicat_status dsid reqid)
  else if name = "get_thumbnails" then
    some (do
      let dsid ← getReq arguments "dsid"
      return ClientCall.get_thumbnails dsid (arguments.getD "limit" (.num 100)))
  else if name = "add_thumbnail" then
    some (do
      let dsid ← getReq arguments "dsid"
      let file_path ← getReq arguments "file_path"
      return ClientCall.add_thumbnail dsid file_path (arguments.getD "thumbnail_name" .null))
  else if name = "get_associated_files" then
    some (do
      let dsid ← getReq arguments "dsid"
      return ClientCall.get_associated_files dsid (arguments.getD "limit" (.num 100)))
  else if name = "add_associated_file" then
    some (do
      let dsid ← getReq arguments "dsid"
      let file_path ← getReq arguments "file_path"
      return ClientCall.add_associated_file dsid file_path (arguments.getD "filename" .null))
  else if name = "get_scientific_metadata" then
    some (do
      let dsid ← getReq arguments "dsid"
      return ClientCall.get_scientific_metadata dsid)
  else if name = "update_scientific_metadata" then
    some (do
      let dsid ← getReq arguments "dsid"
      let metadata ← getReq arguments "metadata"
      return ClientCall.update_scientific_metadata dsid metadata
        (arguments.getD "overwrite" (.bool false)))
  else if name = "get_keywords" then
    some (.ok (.get_keywords (arguments.getD "limit" (.num 100))))
  else if name = "add_dataset_keyword" then
    some (do
      let dsid ← getReq arguments "dsid"
      let keyword ← getReq arguments "keyword"
      return ClientCall.add_dataset_keyword dsid keyword)
  else if name = "request_scicat_upload" then
    some (do
      let dsid ← getReq arguments "dsid"
      return ClientCall.request_scicat_upload dsid
        (arguments.getD "wait_for_response" (.bool false))
        (arguments.getD "overwrite_data" (.bool false)))
  else if name = "get_google_drive_location" then
    some (do
      let dsid ← getReq arguments "dsid"
      return ClientCall.get_google_drive_location dsid)
  else if name = "list_instruments" then
    some (.ok .list_instruments)
  else if name = "get_instrument" then
    some (.ok (.get_instrument (arguments.getD "instrument_name" .null)
      (arguments.getD "instrument_id" .null)))
  else if name = "get_or_add_instrument" then
    some (do
      let instrument_name ← getReq arguments "instrument_name"
      return ClientCall.get_or_add_instrument instrument_name
        (arguments.getD "location" .null) (arguments.getD "instrument_owner" .null))
  else if name = "list_samples" then
    some (.ok (.list_samples arguments))
  else if name = "get_sample" then
    some (do
      let sample_id ← getReq arguments "sample_id"
      return ClientCall.get_sample sample_id)
  else if name = "add_sample" then
    some (.ok (.add_sample arguments))
  else if name = "add_sample_to_dataset" then
    some (do
      let dataset_id ← getReq arguments "dataset_id"
      let sample_id ← getReq arguments "sample_id"
      return ClientCall.add_sample_to_dataset dataset_id sample_id)
  else if name = "get_project_users" then
    some (do
      let project_id ← getReq arguments "project_id"
      return ClientCall.get_project_users project_id)
  else
    none

/-- The external `CrucibleClient`, abstracted as its observable behaviour:
each call either returns a value or raises. -/
abbrev Client := ClientCall → Except PyError Json

/-- Lowercase hexadecimal digit, as used by `json.dumps` escapes. -/
def hexDigit (n : Nat) : Char :=
  if n < 10 then Char.ofNat (48 + n) else Char.ofNat (87 + n)

/-- A `\uXXXX` escape sequence. -/
def uEsc (n : Nat) : String :=
  "\\u" ++ String.mk [hexDigit (n / 4096 % 16), hexDigit (n / 256 % 16),
    hexDigit (n / 16 % 16), hexDigit (n % 16)]

/-- Escaping of one character in a JSON string, following `json.dumps`
with its default `ensure_ascii=True` (characters outside `0x20`–`0x7e`
are escaped; astral characters become surrogate pairs). -/
def escChar (c : Char) : String :=
  if c = '\\' then "\\\\"
  else if c = '\"' then "\\\""
  else if c = '\n' then "\\n"
  else if c = '\t' then "\\t"
  else if c = '\r' then "\\r"
  else if c.toNat = 8 then "\\b"
  else if c.toNat = 12 then "\\f"
  else if c.toNat < 32 then uEsc c.toNat
  else if c.toNat < 127 then String.mk [c]
  else if c.toNat < 65536 then uEsc c.toNat
  else
    uEsc (55296 + (c.toNat - 65536) / 1024) ++ uEsc (56320 + (c.toNat - 65536) % 1024)

/-- A JSON string literal with quotes and escapes. -/
def jsonQuote (s : String) : String :=
  "\"" ++ String.join (s.data.map escChar) ++ "\""

/-- Indentation of `n` spaces. -/
def indentStr (n : Nat) : String :=
  String.mk (List.replicate n ' ')

mutual

/-- Model of `json.dumps(v, indent=2, default=str)` at nesting level
`lvl`: empty containers render inline as `[]` and `\x7b\x7d`; non-empty
containers are spread over lines with two-space indentation and `,`
item separators, as Python does once `indent` is given. -/
def dumpsVal (lvl : Nat) : Json → String
  | .null => "null"
  | .bool true => "true"
  | .bool false => "false"
  | .num n => toString n
  | .str s => jsonQuote s
  | .arr [] => "[]"
  | .arr (x :: xs) =>
    "[\n" ++ dumpsItems (lvl + 1) (x :: xs) ++ "\n" ++ indentStr (2 * lvl) ++ "]"
  | .obj [] => "\x7b\x7d"
  | .obj (f :: fs) =>
    "\x7b\n" ++ dumpsFields (lvl + 1) (f :: fs) ++ "\n" ++ indentStr (2 * lvl) ++ "\x7d"

/-- Comma-and-newline separated array items, each on its own indented
line. -/
def dumpsItems (lvl : Nat) : List Json → String
  | [] => ""
  | [x] => indentStr (2 * lvl) ++ dumpsVal lvl x
  | x :: y :: rest =>
    indentStr (2 * lvl) ++ dumpsVal lvl x ++ ",\n" ++ dumpsItems lvl (y :: rest)

/-- Comma-and-newline separated object fields. -/
def dumpsFields (lvl : Nat) : List (String × Json) → String
  | [] => ""
  | [(k, v)] => indentStr (2 * lvl) ++ jsonQuote k ++ ": " ++ dumpsVal lvl v
  | (k, v) :: g :: rest =>
    indentStr (2 * lvl) ++ jsonQuote k ++ ": " ++ dumpsVal lvl v ++ ",\n" ++
      dumpsFields lvl (g :: rest)

end

/-- Result formatting at the end of the `try` block: `None` becomes the
fixed success message, anything else is serialized with
`json.dumps(result, indent=2, default=str)`. -/
def formatResult (result : Json) : String :=
  match result with
  | .null => "Operation completed successfully (no return value)"
  | r => dumpsVal 0 r

/-- A `types.TextContent(type="text", text=...)` item. -/
structure TextContent where
  type : String
  text : String

/-- The Dispatcher `handle_call_tool(name, arguments)` of
`crucible_mcp_server.py`, over the global client handle (`none` while
uninitialized).  The unknown-tool branch returns from inside the `try`
without raising; a `KeyError` from argument subscripting and any
exception from the client method both reach the `except` clause, which
renders `"Error executing {name}: {str(e)}"`. -/
def handle_call_tool (client : Option Client) (name : String) (arguments : Args) :
    List TextContent :=
  match client with
  | none =>
    [⟨"text", "Error: Crucible client not initialized. Please set CRUCIBLE_API_URL and CRUCIBLE_API_KEY environment variables."⟩]
  | some c =>
    match dispatchCall name arguments with
    | none => [⟨"text", "Error: Unknown tool \x27" ++ name ++ "\x27"⟩]
    | some (.error e) => [⟨"text", "Error executing " ++ name ++ ": " ++ e.str⟩]
    | some (.ok call) =>
      match c call with
      | .error e => [⟨"text", "Error executing " ++ name ++ ": " ++ e.str⟩]
      | .ok result => [⟨"text", formatResult result⟩]

/-- One entry of a tool input schema: the JSON-schema `type`,
`description`, and the `default` value when the source declares one. -/
structure ToolProp where
  type : String
  description : String
  default : Option Json

/-- A tool `inputSchema` as declared in `handle_list_tools`:
`additionalProperties` is `some true` exactly where the source sets it
(only `list_datasets`), `none` where the key is absent. -/
structure InputSchema where
  type : String
  properties : List (String × ToolProp)
  required : List String
  additionalProperties : Option Bool

/-- A `Tool(name=..., description=..., inputSchema=...)` declaration. -/
structure Tool where
  name : String
  description : String
  inputSchema : InputSchema

/-- The Tool Registry: the list returned by `handle_list_tools` in
`crucible_mcp_server.py`, transcribed declaration by declaration. -/
def handle_list_tools : List Tool := [
  ⟨"list_projects",
    "List all accessible projects in Crucible.  Then uses that information to either list all projects (admin) or all projects associated with the current user\x27s ORCID",
    ⟨"object",
      [("limit", ⟨"integer", "Maximum number of results to return (default: 100)", none⟩)],
      [], none⟩⟩,
  ⟨"get_project", "Get details of a specific project",
    ⟨"object",
      [("project_id", ⟨"string", "The project ID to retrieve", none⟩)],
      ["project_id"], none⟩⟩,
  ⟨"get_user", "Get user details by ORCID. Requires admin permissions.",
    ⟨"object",
      [("orcid", ⟨"string", "ORCID identifier (format: 0000-0000-0000-000X)", none⟩)],
      ["orcid"], none⟩⟩,
  ⟨"list_datasets", "List datasets with optional filtering",
    ⟨"object",
      [("sample_id", ⟨"string", "If provided, returns datasets associated with this sample ID", none⟩),
       ("public", ⟨"boolean", "If provided, filters datasets by public visibility", none⟩),
       ("instrument_id", ⟨"integer", "If provided, returns only datasets associated with this instrument ID", none⟩),
       ("project_id", ⟨"string", "If provided, returns only datasets associated with this project ID", none⟩),
       ("owner_orcid", ⟨"string", "If provided, returns only datasets owned by this ORCID", none⟩),
       ("dataset_name", ⟨"string", "If provided, filters datasets by name", none⟩),
       ("source_folder", ⟨"string", "If provided, filters datasets by source folder", none⟩),
       ("data_format", ⟨"string", "If provided, filters datasets by data format", none⟩),
       ("measurement", ⟨"string", "If provided, filters datasets by measurement type", none⟩),
       ("session_name", ⟨"string", "If provided, filters datasets by session name", none⟩),
       ("keyword", ⟨"string", "If provided, filters datasets by keyword", none⟩)],
      [], some true⟩⟩,
  ⟨"get_dataset", "Get dataset details, optionally including scientific metadata",
    ⟨"object",
      [("dsid", ⟨"string", "Dataset ID", none⟩),
       ("include_metadata", ⟨"boolean", "Whether to include scientific metadata", some (.bool false)⟩)],
      ["dsid"], none⟩⟩,
  ⟨"update_dataset", "Update an existing dataset with new field values",
    ⟨"object",
      [("dsid", ⟨"string", "Dataset ID", none⟩),
       ("updates", ⟨"object", "Field names and values to update (e.g., dataset_name, public, measurement, etc.)", none⟩)],
      ["dsid", "updates"], none⟩⟩,
  ⟨"download_dataset", "Download a dataset file",
    ⟨"object",
      [("dsid", ⟨"string", "Dataset ID", none⟩),
       ("file_name", ⟨"string", "Name of file to download (optional - uses dataset\x27s file_to_upload field if not provided)", none⟩),
       ("output_path", ⟨"string", "Local path to save file (optional - uses crucible-downloads/<filename> if not provided)", none⟩)],
      ["dsid"], none⟩⟩,
  ⟨"request_ingestion", "Request dataset ingestion",
    ⟨"object",
      [("dsid", ⟨"string", "Dataset ID", none⟩),
       ("file_to_upload", ⟨"string", "Path to the file to ingest", none⟩),
       ("ingestion_class", ⟨"string", "Ingestion class to use", none⟩),
       ("wait_for_response", ⟨"boolean", "Whether to wait for the ingestion request to complete before returning a value to the user", none⟩)],
      ["dsid"], none⟩⟩,
  ⟨"get_ingestion_status", "Get the status of an ingestion request",
    ⟨"object",
      [("dsid", ⟨"string", "Dataset ID", none⟩),
       ("reqid", ⟨"string", "Request ID for the ingestion", none⟩)],
      ["dsid", "reqid"], none⟩⟩,
  ⟨"get_scicat_status", "Get the status of a SciCat request",
    ⟨"object",
      [("dsid", ⟨"string", "Dataset ID", none⟩),
       ("reqid", ⟨"string", "Request ID for the SciCat operation", none⟩)],
      ["dsid", "reqid"], none⟩⟩,
  ⟨"get_thumbnails", "Get thumbnails for a dataset",
    ⟨"object",
      [("dsid", ⟨"string", "Dataset ID", none⟩),
       ("limit", ⟨"integer", "Maximum number of results to return (default: 100)", none⟩)],
      ["dsid"], none⟩⟩,
  ⟨"add_thumbnail", "Add a thumbnail to a dataset",
    ⟨"object",
      [("dsid", ⟨"string", "Dataset ID", none⟩),
       ("file_path", ⟨"string", "Path to image file", none⟩),
       ("thumbnail_name", ⟨"string", "Display name (uses filename if not provided)", none⟩)],
      ["dsid", "file_path"], none⟩⟩,
  ⟨"get_associated_files", "Get associated files for a dataset",
    ⟨"object",
      [("dsid", ⟨"string", "Dataset ID", none⟩),
       ("limit", ⟨"integer", "Maximum number of results to return (default: 100)", none⟩)],
      ["dsid"], none⟩⟩,
  ⟨"add_associated_file", "Add an associated file to a dataset",
    ⟨"object",
      [("dsid", ⟨"string", "Dataset ID", none⟩),
       ("file_path", ⟨"string", "Path to file (for calculating metadata)", none⟩),
       ("filename", ⟨"string", "Filename to store (uses basename if not provided)", none⟩)],
      ["dsid", "file_path"], none⟩⟩,
  ⟨"get_scientific_metadata", "Get scientific metadata for a dataset",
    ⟨"object",
      [("dsid", ⟨"string", "Dataset ID", none⟩)],
      ["dsid"], none⟩⟩,
  ⟨"update_scientific_metadata", "Update scientific metadata for a dataset",
    ⟨"object",
      [("dsid", ⟨"string", "Dataset ID", none⟩),
       ("metadata", ⟨"object", "Scientific metadata to update", none⟩),
       ("overwrite", ⟨"boolean", "Whether to overwrite existing metadata (default: False)", some (.bool false)⟩)],
      ["dsid", "metadata"], none⟩⟩,
  ⟨"get_keywords", "List all keywords in the database with their dataset counts",
    ⟨"object",
      [("limit", ⟨"integer", "Maximum number of results to return (default: 100)", none⟩)],
      [], none⟩⟩,
  ⟨"add_dataset_keyword", "Add a keyword to a dataset",
    ⟨"object",
      [("dsid", ⟨"string", "Dataset ID", none⟩),
       ("keyword", ⟨"string", "Keyword to add", none⟩)],
      ["dsid", "keyword"], none⟩⟩,
  ⟨"request_scicat_upload", "Request SciCat update for a dataset",
    ⟨"object",
      [("dsid", ⟨"string", "Dataset ID", none⟩),
       ("wait_for_response", ⟨"boolean", "Whether to wait for the SciCat response", some (.bool false)⟩),
       ("overwrite_data", ⟨"boolean", "Whether to overwrite existing SciCat records", some (.bool false)⟩)],
      ["dsid"], none⟩⟩,
  ⟨"get_google_drive_location", "Get current Google Drive location information for a dataset",
    ⟨"object",
      [("dsid", ⟨"string", "Dataset ID", none⟩)],
      ["dsid"], none⟩⟩,
  ⟨"list_instruments", "List all available instruments",
    ⟨"object", [], [], none⟩⟩,
  ⟨"get_instrument", "Get instrument information by name or ID",
    ⟨"object",
      [("instrument_name", ⟨"string", "Name of the instrument", none⟩),
       ("instrument_id", ⟨"integer", "ID of the instrument", none⟩)],
      [], none⟩⟩,
  ⟨"get_or_add_instrument", "Get an existing instrument or create a new one if it doesn\x27t exist",
    ⟨"object",
      [("instrument_name", ⟨"string", "Name of the instrument", none⟩),
       ("location", ⟨"string", "Location where instrument is located", none⟩),
       ("instrument_owner", ⟨"string", "Owner of the instrument", none⟩)],
      ["instrument_name"], none⟩⟩,
  ⟨"list_samples",
    "List samples with optional filtering.  None of the filters are expecting the internal database ID, they expect either a uuid or a custom field with a descriptive ID. ",
    ⟨"object",
      [("dataset_id", ⟨"string", "Dataset ID to get samples from", none⟩),
       ("parent_id", ⟨"string", "Parent sample ID to get children from", none⟩),
       ("unique_id", ⟨"string", "If provided, filters samples by unique ID", none⟩),
       ("sample_name", ⟨"string", "If provided, filters samples by name", none⟩),
       ("project_id", ⟨"string", "If provided, filters samples by project ID", none⟩),
       ("owner_orcid", ⟨"string", "If provided, filters samples by owner ORCID", none⟩),
       ("date_created", ⟨"string", "If provided, filters samples by creation date", none⟩),
       ("description", ⟨"string", "If provided, filters samples by description", none⟩)],
      [], none⟩⟩,
  ⟨"get_sample", "Get sample information by ID",
    ⟨"object",
      [("sample_id", ⟨"string", "Sample ID", none⟩)],
      ["sample_id"], none⟩⟩,
  ⟨"add_sample", "Add a new sample to the system",
    ⟨"object",
      [("unique_id", ⟨"string", "Unique ID for the sample", none⟩),
       ("sample_name", ⟨"string", "Name of the sample", none⟩),
       ("description", ⟨"string", "Description of the sample", none⟩),
       ("creation_date", ⟨"string", "Creation date in ISO format", none⟩),
       ("owner_orcid", ⟨"string", "ORCID of the sample owner", none⟩)],
      [], none⟩⟩,
  ⟨"add_sample_to_dataset", "Link a sample to a dataset",
    ⟨"object",
      [("dataset_id", ⟨"string", "Dataset ID", none⟩),
       ("sample_id", ⟨"string", "Sample ID", none⟩)],
      ["dataset_id", "sample_id"], none⟩⟩,
  ⟨"get_project_users", "Get users associated with a project",
    ⟨"object",
      [("project_id", ⟨"string", "Project ID", none⟩)],
      ["project_id"], none⟩⟩]

/-- The names declared in the Tool Registry. -/
def registryNames : List String :=
  handle_list_tools.map Tool.name

/-- Whether a tool schema declares a property named `k`. -/
def declaresProp (t : Tool) (k : String) : Bool :=
  t.inputSchema.properties.any (fun p => p.1 = k)

/-- The property names of the `list_datasets` schema in the Registry. -/
def listDatasetsSchemaKeys : List String :=
  match handle_list_tools.find? (fun t => t.name = "list_datasets") with
  | some t => t.inputSchema.properties.map Prod.fst
  | none => []

/-- Client calls made by the FastMCP rewrite (`crucible_mcp_server2.0.py`):
positional arguments plus the `**provided_filters` keyword expansion. -/
inductive ClientCall2 where
  | list_datasets (sample_id : Option String) (limit : Int) (kwargs : List (String × Json))
  | list_samples (dataset_id : Option String) (parent_id : Option String) (limit : Int)
      (kwargs : List (String × Json))

/-- The `filter_fields` dict built inside the FastMCP `list_datasets`:
each optional parameter under its declared key, `None` modelled by
`Option.none` (string parameters injected via `Json.str`, the boolean one
via `Json.bool`). -/
def listDatasetsFilterFields (unique_id : Option String) (public : Option Bool)
    (dataset_name file_to_upload owner_orcid project_id instrument_name source_folder
      creation_time data_format measurement session_name sha256_hash_file_to_upload
      keyword : Option String) : List (String × Option Json) :=
  [("unique_id", unique_id.map Json.str),
   ("public", public.map Json.bool),
   ("dataset_name", dataset_name.map Json.str),
   ("file_to_upload", file_to_upload.map Json.str),
   ("owner_orcid", owner_orcid.map Json.str),
   ("project_id", project_id.map Json.str),
   ("instrument_name", instrument_name.map Json.str),
   ("source_folder", source_folder.map Json.str),
   ("creation_time", creation_time.map Json.str),
   ("data_format", data_format.map Json.str),
   ("measurement", measurement.map Json.str),
   ("session_name", session_name.map Json.str),
   ("sha256_hash_file_to_upload", sha256_hash_file_to_upload.map Json.str),
   ("keyword", keyword.map Json.str)]

/-- The dict comprehension
`provided_filters = \x7bk: v for k, v in filter_fields.items() if v is not None\x7d`. -/
def providedFilters (filter_fields : List (String × Option Json)) : List (String × Json) :=
  filter_fields.filterMap (fun kv => kv.2.map (fun v => (kv.1, v)))

/-- The FastMCP `list_datasets` tool body: builds `filter_fields`, keeps
the non-None entries, and calls
`client.list_datasets(sample_id, limit, **provided_filters)`.  Every
optional parameter defaults to `None` in the source, so omitting a
parameter and passing `None` explicitly are literally the same call. -/
def list_datasets2 (sample_id unique_id : Option String) (public : Option Bool)
    (dataset_name file_to_upload owner_orcid project_id instrument_name source_folder
      creation_time data_format measurement session_name sha256_hash_file_to_upload
      keyword : Option String) (limit : Int) : ClientCall2 :=
  ClientCall2.list_datasets sample_id limit
    (providedFilters (listDatasetsFilterFields unique_id public dataset_name file_to_upload
      owner_orcid project_id instrument_name source_folder creation_time data_format
      measurement session_name sha256_hash_file_to_upload keyword))

/-- The `filter_fields` dict built inside the FastMCP `list_samples`. -/
def listSamplesFilterFields (sample_name owner_orcid date_created project_id
    description : Option String) : List (String × Option Json) :=
  [("sample_name", sample_name.map Json.str),
   ("owner_orcid", owner_orcid.map Json.str),
   ("date_created", date_created.map Json.str),
   ("project_id", project_id.map Json.str),
   ("description", description.map Json.str)]

/-- The FastMCP `list_samples` tool body:
`client.list_samples(dataset_id, parent_id, limit, **provided_filters)`. -/
def list_samples2 (dataset_id parent_id : Option String) (limit : Int)
    (sample_name owner_orcid date_created project_id description : Option String) :
    ClientCall2 :=
  ClientCall2.list_samples dataset_id parent_id limit
    (providedFilters (listSamplesFilterFields sample_name owner_orcid date_created
      project_id description))

/-- The declared filter keys of the FastMCP `list_datasets` (the keys of
`filter_fields`, which do not depend on the argument values). -/
def listDatasets2FilterKeys : List String :=
  (listDatasetsFilterFields none none none none none none none none none none none none
    none none).map Prod.fst

/-- The declared filter keys of the FastMCP `list_samples`. -/
def listSamples2FilterKeys : List String :=
  (listSamplesFilterFields none none none none none).map Prod.fst

/-- Outcome of process startup: either `sys.exit(code)` after printing a
line to stderr, or entering the transport loop with a constructed client. -/
inductive StartupOutcome where
  | exitWith (code : Nat) (stderrLine : String)
  | serve (api_url : String) (api_key : String)

/-- Python truthiness of an `os.getenv` result: `None` and the empty
string are falsy. -/
def pyTruthy : Option String → Bool
  | none => false
  | some s => !s.isEmpty

/-- The startup environment check of `main()` in `crucible_mcp_server.py`
(the `__main__` block of the FastMCP version is textually identical):
`if not api_url or not api_key: print(..., file=sys.stderr); sys.exit(1)`,
otherwise the client is constructed and the transport loop is entered. -/
def mainStartup (env : String → Option String) : StartupOutcome :=
  let api_url := env "CRUCIBLE_API_URL"
  let api_key := env "CRUCIBLE_API_KEY"
  if !pyTruthy api_url || !pyTruthy api_key then
    .exitWith 1 "Error: CRUCIBLE_API_URL and CRUCIBLE_API_KEY environment variables must be set"
  else
    .serve (api_url.getD "") (api_key.getD "")

/-- A client whose every method raises an exception with message `boom`. -/
def clientBoom : Client := fun _ => .error (.exc "boom")

/-- A client whose every method returns the string `hi`. -/
def clientOkStr : Client := fun _ => .ok (.str "hi")

/-- A client whose every method succeeds, returning `None`: no call to it
can ever produce a failure. -/
def clientOkNull : Client := fun _ => .ok Json.null

/-- An environment where only `CRUCIBLE_API_URL` is set. -/
def envOnlyUrl : String → Option String :=
  fun k => if k = "CRUCIBLE_API_URL" then some "https://crucible.example" else none

/-- An argument bag carrying every required key any registered tool
indexes, so that each recognized tool name reaches its client call. -/
def allArgsBag : Args :=
  [("project_id", .str "p"), ("orcid", .str "o"), ("dsid", .str "d"),
   ("updates", .obj []), ("reqid", .str "r"), ("file_path", .str "f"),
   ("metadata", .obj []), ("keyword", .str "k"), ("instrument_name", .str "i"),
   ("sample_id", .str "s"), ("dataset_id", .str "ds")]

/-- Helper: the dispatcher recognizes a name (reaches any branch other
than the final `else`) exactly for the Registry names plus the stray
`get_account`. -/
theorem dispatch_isSome_iff (name : String) (arguments : Args) :
    (dispatchCall name arguments).isSome ↔ (name ∈ registryNames ∨ name = "get_account") := by
  constructor
  · intro h
    by_contra hc
    push_neg at hc
    obtain ⟨hreg, hacct⟩ := hc
    simp only [registryNames, handle_list_tools, List.map_cons, List.map_nil, List.mem_cons,
      List.not_mem_nil, or_false] at hreg
    push_neg at hreg
    obtain ⟨h1, h2, h3, h4, h5, h6, h7, h8, h9, h10, h11, h12, h13, h14, h15, h16, h17, h18,
      h19, h20, h21, h22, h23, h24, h25, h26, h27, h28⟩ := hreg
    unfold dispatchCall at h
    rw [if_neg h1, if_neg hacct, if_neg h2, if_neg h3, if_neg h4, if_neg h5, if_neg h6,
      if_neg h7, if_neg h8, if_neg h9, if_neg h10, if_neg h11, if_neg h12, if_neg h13,
      if_neg h14, if_neg h15, if_neg h16, if_neg h17, if_neg h18, if_neg h19, if_neg h20,
      if_neg h21, if_neg h22, if_neg h23, if_neg h24, if_neg h25, if_neg h26, if_neg h27,
      if_neg h28] at h
    simp at h
  · intro h
    rcases h with hmem | rfl
    · simp only [registryNames, handle_list_tools, List.map_cons, List.map_nil, List.mem_cons,
        List.not_mem_nil, or_false] at hmem
      rcases hmem with rfl | rfl | rfl | rfl | rfl | rfl | rfl | rfl | rfl | rfl | rfl | rfl |
        rfl | rfl | rfl | rfl | rfl | rfl | rfl | rfl | rfl | rfl | rfl | rfl | rfl | rfl |
        rfl | rfl
      all_goals rfl
    · rfl

/-- Helper: membership in the non-None filter selection. -/
theorem mem_providedFilters (ff : List (String × Option Json)) (k : String) (v : Json) :
    (k, v) ∈ providedFilters ff ↔ (k, some v) ∈ ff := by
  simp only [providedFilters, List.mem_filterMap]
  constructor
  · rintro ⟨⟨k2, o⟩, hmem, hmap⟩
    cases o with
    | none => simp at hmap
    | some w =>
      have h : (k2, w) = (k, v) := Option.some.inj hmap
      injection h with h1 h2
      subst h1
      subst h2
      exact hmem
  · intro hmem
    exact ⟨(k, some v), hmem, rfl⟩

/-- C1: for every tool name and argument bag, if the underlying client
method that the dispatcher invokes raises, `handle_call_tool` returns the
single text result `"Error executing {tool_name}: {exception message}"`;
the dispatcher is a total function, so nothing propagates to the
transport loop and later calls (which share no mutable state with this
one) are handled as usual. -/
theorem C1_underlying_exception_formatted (client : Client) (name : String) (arguments : Args)
    (call : ClientCall) (e : PyError)
    (hdisp : dispatchCall name arguments = some (.ok call))
    (herr : client call = .error e) :
    handle_call_tool (some client) name arguments =
      [⟨"text", "Error executing " ++ name ++ ": " ++ e.str⟩] := by
  simp [handle_call_tool, hdisp, herr]

/-- Witness for C1: a client that raises `boom` on every method, invoked
through `get_project`. -/
theorem C1_witness :
    handle_call_tool (some clientBoom) "get_project" [("project_id", Json.str "P1")] =
      [⟨"text", "Error executing get_project: boom"⟩] :=
  C1_underlying_exception_formatted clientBoom "get_project" [("project_id", Json.str "P1")]
    (.get_project (.str "P1")) (.exc "boom") rfl rfl

/-- C2: while the global client handle is unset, every dispatch returns
the fixed text stating the Crucible client is not initialized, whatever
the tool name and arguments are, and no exception escapes. -/
theorem C2_uninitialized_client_message (name : String) (arguments : Args) :
    handle_call_tool none name arguments =
      [⟨"text", "Error: Crucible client not initialized. Please set CRUCIBLE_API_URL and CRUCIBLE_API_KEY environment variables."⟩] :=
  rfl

/-- C3 counterexample: `get_account` is not in the Tool Registry, yet
dispatching it does not produce an error result containing the name — it
routes to `client.get_user_account_info()` and here returns the
serialized success value `"hi"`, whose text does not contain
`get_account`. -/
theorem C3_counterexample :
    "get_account" ∉ registryNames ∧
    handle_call_tool (some clientOkStr) "get_account" [] = [⟨"text", "\"hi\""⟩] ∧
    ¬ ("get_account".data <:+: "\"hi\"".data) :=
  ⟨by decide, rfl, by decide⟩

/-- C3 amended: for every tool name outside the dispatcher routable set —
the Tool Registry names together with the unregistered extra name
`get_account` — dispatching with an initialized client returns the error
result `"Error: Unknown tool '{name}'"`, whose text contains the unknown
name, and never throws. -/
theorem C3_amended_unknown_tool (client : Client) (name : String) (arguments : Args)
    (hreg : name ∉ registryNames) (hacct : name ≠ "get_account") :
    handle_call_tool (some client) name arguments =
      [⟨"text", "Error: Unknown tool \x27" ++ name ++ "\x27"⟩] ∧
    name.data <:+: ("Error: Unknown tool \x27" ++ name ++ "\x27").data := by
  have hnone : dispatchCall name arguments = none := by
    cases hd : dispatchCall name arguments with
    | none => rfl
    | some v =>
      have : name ∈ registryNames ∨ name = "get_account" :=
        (dispatch_isSome_iff name arguments).mp (by simp [hd])
      rcases this with h | h
      · exact absurd h hreg
      · exact absurd h hacct
  refine ⟨by simp [handle_call_tool, hnone], ?_⟩
  have hdata : ("Error: Unknown tool \x27" ++ name ++ "\x27").data =
      "Error: Unknown tool \x27".data ++ name.data ++ "\x27".data := by
    simp [String.data_append]
  rw [hdata]
  exact List.infix_append _ _ _

/-- Witness for C3: the unknown name `totally_bogus`. -/
theorem C3_witness :
    handle_call_tool (some clientOkStr) "totally_bogus" [] =
      [⟨"text", "Error: Unknown tool \x27totally_bogus\x27"⟩] ∧
    "totally_bogus".data <:+: ("Error: Unknown tool \x27totally_bogus\x27").data := by
  have h := C3_amended_unknown_tool clientOkStr "totally_bogus" [] (by decide) (by decide)
  exact h

/-- C4 counterexample: the v1 dispatcher forwards the whole bag to
`client.list_datasets(**arguments)`: the key `bogus`, which is not among
the declared `list_datasets` schema properties, is still passed through
to the client call. -/
theorem C4_counterexample :
    "bogus" ∉ listDatasetsSchemaKeys ∧
    dispatchCall "list_datasets" [("bogus", Json.str "x")] =
      some (.ok (.list_datasets [("bogus", Json.str "x")])) :=
  ⟨by decide, rfl⟩

/-- C4 amended: in `crucible_mcp_server.py` the list-style operations
forward the entire argument bag verbatim as keyword arguments, declared
or not (the `list_datasets` schema even opts into
`additionalProperties: true`); only the FastMCP rewrite restricts
forwarding, where every forwarded filter key comes from the declared
`filter_fields` key set. -/
theorem C4_amended_forwarding :
    (∀ arguments : Args,
      dispatchCall "list_datasets" arguments = some (.ok (.list_datasets arguments)) ∧
      dispatchCall "list_samples" arguments = some (.ok (.list_samples arguments))) ∧
    (∀ uid pub dn ftu oo pid inm sf ct df m sn sh kw (k : String) (v : Json),
      (k, v) ∈ providedFilters (listDatasetsFilterFields uid pub dn ftu oo pid inm sf ct df m
        sn sh kw) → k ∈ listDatasets2FilterKeys) ∧
    (∀ sn oo dc pid dsc (k : String) (v : Json),
      (k, v) ∈ providedFilters (listSamplesFilterFields sn oo dc pid dsc) →
      k ∈ listSamples2FilterKeys) := by
  refine ⟨fun arguments => ⟨rfl, rfl⟩, ?_, ?_⟩
  · intro uid pub dn ftu oo pid inm sf ct df m sn sh kw k v hmem
    have h := (mem_providedFilters _ k v).mp hmem
    have h2 : k ∈ (listDatasetsFilterFields uid pub dn ftu oo pid inm sf ct df m sn sh
        kw).map Prod.fst := List.mem_map_of_mem Prod.fst h
    simpa [listDatasets2FilterKeys, listDatasetsFilterFields] using h2
  · intro sn oo dc pid dsc k v hmem
    have h := (mem_providedFilters _ k v).mp hmem
    have h2 : k ∈ (listSamplesFilterFields sn oo dc pid dsc).map Prod.fst :=
      List.mem_map_of_mem Prod.fst h
    simpa [listSamples2FilterKeys, listSamplesFilterFields] using h2

/-- Witness for C4: the verbatim-forwarding part applied to the empty
bag. -/
theorem C4_witness :
    dispatchCall "list_datasets" [] = some (.ok (.list_datasets [])) :=
  (C4_amended_forwarding.1 []).1

/-- C5 counterexample: `get_account` is routed to a client method
(`get_user_account_info`) although it is not declared in the Tool
Registry, so the routable set is strictly larger than the Registry. -/
theorem C5_counterexample :
    "get_account" ∉ registryNames ∧
    dispatchCall "get_account" [] = some (.ok .get_user_account_info) :=
  ⟨by decide, rfl⟩

/-- C5 amended: the set of names the dispatcher recognizes (routes past
the unknown-tool branch) is exactly the Tool Registry names plus the one
unregistered extra name `get_account`: every registered name is
recognized, and `get_account`, which maps to
`client.get_user_account_info()`, is the only recognized name outside
the Registry. -/
theorem C5_amended_routable_set :
    (∀ (name : String) (arguments : Args),
      (dispatchCall name arguments).isSome ↔
        (name ∈ registryNames ∨ name = "get_account")) ∧
    "get_account" ∉ registryNames ∧
    dispatchCall "get_account" [] = some (.ok .get_user_account_info) :=
  ⟨dispatch_isSome_iff, by decide, rfl⟩

/-- C6 counterexample: `clientOkNull` succeeds on every possible call, so
no underlying client call ever produces a failure; nevertheless
dispatching `get_dataset` with an empty bag returns an error result.  The
error is the `KeyError` raised by `arguments["dsid"]` in the dispatch
layer itself — extraction fails before any client call is even
constructed — not a failure produced by the underlying client call. -/
theorem C6_counterexample :
    handle_call_tool (some clientOkNull) "get_dataset" [] =
      [⟨"text", "Error executing get_dataset: \x27dsid\x27"⟩] ∧
    dispatchCall "get_dataset" [] = some (.error (.keyError "dsid")) :=
  ⟨rfl, rfl⟩

/-- C6 amended: dispatching a tool whose required key is missing returns
an error result surfacing the `KeyError` raised by indexing the argument
bag inside the dispatch layer; the underlying client method is never
invoked for that call, so the result is independent of the client
behaviour.  Beyond this indexing the layer performs no validation. -/
theorem C6_amended_missing_key (name : String) (arguments : Args) (e : PyError)
    (client : Client) (hdisp : dispatchCall name arguments = some (.error e)) :
    handle_call_tool (some client) name arguments =
      [⟨"text", "Error executing " ++ name ++ ": " ++ e.str⟩] ∧
    (∀ client2 : Client,
      handle_call_tool (some client2) name arguments =
        handle_call_tool (some client) name arguments) := by
  constructor
  · simp [handle_call_tool, hdisp]
  · intro client2
    simp [handle_call_tool, hdisp]

/-- Witness for C6: `get_dataset` with no `dsid` key under the
always-succeeding client. -/
theorem C6_witness :
    handle_call_tool (some clientBoom) "get_dataset" [] =
      [⟨"text", "Error executing get_dataset: \x27dsid\x27"⟩] :=
  (C6_amended_missing_key "get_dataset" [] (.keyError "dsid") clientBoom rfl).1

/-- C7: `limit` is declared by exactly four Registry tools
(`list_projects`, `get_thumbnails`, `get_associated_files`,
`get_keywords`), and calling each of them with exactly its required
arguments forwards `limit=100`; `get_dataset` called with only `dsid`
forwards `include_metadata=False`; the remaining schema-declared defaults
(`overwrite`, `wait_for_response`, `overwrite_data`, all `False`) are
likewise forwarded when omitted. -/
theorem C7_declared_defaults_forwarded :
    (handle_list_tools.filter (fun t => declaresProp t "limit")).map Tool.name =
      ["list_projects", "get_thumbnails", "get_associated_files", "get_keywords"] ∧
    dispatchCall "list_projects" [] = some (.ok (.list_projects (.num 100))) ∧
    dispatchCall "get_keywords" [] = some (.ok (.get_keywords (.num 100))) ∧
    (∀ d, dispatchCall "get_thumbnails" [("dsid", d)] =
      some (.ok (.get_thumbnails d (.num 100)))) ∧
    (∀ d, dispatchCall "get_associated_files" [("dsid", d)] =
      some (.ok (.get_associated_files d (.num 100)))) ∧
    (∀ d, dispatchCall "get_dataset" [("dsid", d)] =
      some (.ok (.get_dataset d (.bool false)))) ∧
    (∀ d m, dispatchCall "update_scientific_metadata" [("dsid", d), ("metadata", m)] =
      some (.ok (.update_scientific_metadata d m (.bool false)))) ∧
    (∀ d, dispatchCall "request_scicat_upload" [("dsid", d)] =
      some (.ok (.request_scicat_upload d (.bool false) (.bool false)))) :=
  ⟨rfl, rfl, rfl, fun _ => rfl, fun _ => rfl, fun _ => rfl, fun _ _ => rfl, fun _ => rfl⟩

/-- C8: a `None` return from the underlying call renders as the fixed
message `Operation completed successfully (no return value)` — never an
empty string — while empty collections serialize visibly as `[]` and
`\x7b\x7d`, each distinct from that fixed message. -/
theorem C8_none_versus_empty (name : String) (arguments : Args) (call : ClientCall)
    (client : Client) (hdisp : dispatchCall name arguments = some (.ok call)) :
    (client call = .ok Json.null →
      handle_call_tool (some client) name arguments =
        [⟨"text", "Operation completed successfully (no return value)"⟩]) ∧
    (client call = .ok (Json.arr []) →
      handle_call_tool (some client) name arguments = [⟨"text", "[]"⟩]) ∧
    (client call = .ok (Json.obj []) →
      handle_call_tool (some client) name arguments = [⟨"text", "\x7b\x7d"⟩]) ∧
    "Operation completed successfully (no return value)" ≠ "" ∧
    "[]" ≠ "Operation completed successfully (no return value)" ∧
    "\x7b\x7d" ≠ "Operation completed successfully (no return value)" := by
  refine ⟨?_, ?_, ?_, by decide, by decide, by decide⟩ <;>
    intro h <;> simp [handle_call_tool, hdisp, h, formatResult, dumpsVal]

/-- Witness for C8: `list_instruments` under the client returning `None`
for every call. -/
theorem C8_witness :
    handle_call_tool (some clientOkNull) "list_instruments" [] =
      [⟨"text", "Operation completed successfully (no return value)"⟩] :=
  (C8_none_versus_empty "list_instruments" [] .list_instruments clientOkNull rfl).1 rfl

/-- C9: whenever either required environment value is missing (or empty,
since Python truthiness is what the source tests), startup prints the
error line naming both `CRUCIBLE_API_URL` and `CRUCIBLE_API_KEY` to
stderr and exits with status 1; the `serve` outcome — the only path into
the transport loop — is never reached. -/
theorem C9_missing_env_exits (env : String → Option String)
    (h : pyTruthy (env "CRUCIBLE_API_URL") = false ∨
      pyTruthy (env "CRUCIBLE_API_KEY") = false) :
    mainStartup env =
      .exitWith 1 "Error: CRUCIBLE_API_URL and CRUCIBLE_API_KEY environment variables must be set" ∧
    ∀ u k, mainStartup env ≠ .serve u k := by
  have hcond : (!pyTruthy (env "CRUCIBLE_API_URL") || !pyTruthy (env "CRUCIBLE_API_KEY")) = true := by
    rcases h with h | h <;> simp [h]
  constructor
  · simp [mainStartup, hcond]
  · intro u k
    simp [mainStartup, hcond]

/-- Witness for C9: an environment where only `CRUCIBLE_API_URL` is set. -/
theorem C9_witness :
    mainStartup envOnlyUrl =
      .exitWith 1 "Error: CRUCIBLE_API_URL and CRUCIBLE_API_KEY environment variables must be set" :=
  (C9_missing_env_exits envOnlyUrl (Or.inr rfl)).1

/-- C10: in the FastMCP version every optional filter parameter defaults
to `None`, so passing `None` explicitly is the very same call as omitting
the parameter; the `provided_filters` comprehension forwards a keyword
`(k, v)` exactly when the parameter under key `k` was non-None with value
`v`, so `None`-valued filters are never forwarded, and with every filter
at `None` the forwarded keyword set is empty for both `list_datasets`
and `list_samples`. -/
theorem C10_none_filters_dropped :
    (∀ uid pub dn ftu oo pid inm sf ct df m sn sh kw (k : String) (v : Json),
      (k, v) ∈ providedFilters (listDatasetsFilterFields uid pub dn ftu oo pid inm sf ct df m
          sn sh kw) ↔
        (k, some v) ∈ listDatasetsFilterFields uid pub dn ftu oo pid inm sf ct df m sn sh kw) ∧
    (∀ sn oo dc pid dsc (k : String) (v : Json),
      (k, v) ∈ providedFilters (listSamplesFilterFields sn oo dc pid dsc) ↔
        (k, some v) ∈ listSamplesFilterFields sn oo dc pid dsc) ∧
    (∀ sid limit, list_datasets2 sid none none none none none none none none none none none
        none none none limit = ClientCall2.list_datasets sid limit []) ∧
    (∀ did pid limit, list_samples2 did pid limit none none none none none =
        ClientCall2.list_samples did pid limit []) :=
  ⟨fun _ _ _ _ _ _ _ _ _ _ _ _ _ _ k v => mem_providedFilters _ k v,
   fun _ _ _ _ _ k v => mem_providedFilters _ k v,
   fun _ _ => rfl, fun _ _ _ => rfl⟩
